import Mathlib

/-!
Verification of the flora retrieval-augmented-generation pipeline
(`src/flora/vectorize.py`).

Python strings are modelled as `List Char` (`PyStr`).  External
collaborators (the chromadb vector store, `shutil.which`, and
`subprocess.run`) are modelled as oracle parameters describing their
observable behaviour; everything the module itself computes is embedded
as executable Lean functions, line by line from the source.
-/

/-- A Python string, modelled as a list of characters. -/
abbrev PyStr := List Char

/-- The character list of a Lean string literal (used to transcribe the
Python string literals of the source). -/
def lit (s : String) : PyStr := s.data

/-- Little-endian base-10 digits of `n`, computed structurally on a
fuel bound so that concrete instances evaluate inside the kernel. -/
def natDigitsRev : Nat → Nat → List Nat
  | 0, _ => []
  | fuel + 1, n => if n = 0 then [] else n % 10 :: natDigitsRev fuel (n / 10)

/-- Python decimal rendering `str(n)` of a natural number. -/
def natToStr (n : Nat) : PyStr :=
  if n = 0 then ['0'] else ((natDigitsRev n n).map Nat.digitChar).reverse

/-- Python decimal rendering `str(i)` of an integer (`-` sign for
negatives, e.g. the negative returncodes POSIX uses for signals). -/
def intToStr (i : Int) : PyStr :=
  if i < 0 then '-' :: natToStr i.natAbs else natToStr i.toNat

/-- Characters stripped by Python `str.strip()` (the ASCII whitespace
characters; this embedding models the ASCII fragment of Python's
whitespace set). -/
def isPyWs (c : Char) : Bool :=
  c = ' ' || c = '\t' || c = '\n' || c = '\r' || c = '\x0b' || c = '\x0c'

/-- `str.lstrip()`. -/
def lstrip (s : PyStr) : PyStr := s.dropWhile isPyWs

/-- `str.rstrip()`. -/
def rstrip (s : PyStr) : PyStr := (s.reverse.dropWhile isPyWs).reverse

/-- `str.strip()`. -/
def pyStrip (s : PyStr) : PyStr := rstrip (lstrip s)

/-- Split a string at every `'\n'` (as the line structure seen by the
multiline regexes inside `textwrap.dedent`). -/
def splitNL : PyStr → List PyStr
  | [] => [[]]
  | c :: rest =>
    match splitNL rest with
    | [] => [[c]]
    | l :: ls => if c = '\n' then [] :: l :: ls else (c :: l) :: ls

/-- Join lines with `'\n'` (inverse of `splitNL`). -/
def joinNL : List PyStr → PyStr
  | [] => []
  | [l] => l
  | l :: l2 :: ls => l ++ '\n' :: joinNL (l2 :: ls)

/-- The characters matched by `[ \t]` in `textwrap.dedent`'s regexes. -/
def isWsChar (c : Char) : Bool := c = ' ' || c = '\t'

/-- A line matched by `textwrap._whitespace_only_re`, i.e. `^[ \t]+$`. -/
def isWsOnlyLine (l : PyStr) : Bool := !l.isEmpty && l.all isWsChar

/-- `textwrap.dedent`'s first pass: `_whitespace_only_re.sub('', text)`,
which replaces every whitespace-only line with an empty line. -/
def collapseWsLines (ls : List PyStr) : List PyStr :=
  ls.map fun l => if isWsOnlyLine l then [] else l

/-- The leading `[ \t]*` run of a line (the capture of
`textwrap._leading_whitespace_re`). -/
def leadingWs (l : PyStr) : PyStr := l.takeWhile isWsChar

/-- Longest common starting run of two character lists; this is what
`textwrap.dedent`'s three-way margin update computes. -/
def commonStart : PyStr → PyStr → PyStr
  | a :: as, b :: bs => if a = b then a :: commonStart as bs else []
  | _, _ => []

/-- One step of `textwrap.dedent`'s margin loop.  Lines without a
non-whitespace character are not matched by `_leading_whitespace_re`
and hence skipped. -/
def marginStep (m : Option PyStr) (l : PyStr) : Option PyStr :=
  if l.all isWsChar then m
  else
    match m with
    | none => some (leadingWs l)
    | some p => some (commonStart p (leadingWs l))

/-- The common margin `textwrap.dedent` removes (`[]` both when the
common margin is empty and when no line has content, in which case the
final `re.sub` is skipped and removing `[]` is a no-op). -/
def marginOf (ls : List PyStr) : PyStr := (ls.foldl marginStep none).getD []

/-- `re.sub(r'(?m)^' + margin, '', text)`: drop the margin from every
line that starts with it. -/
def stripMargin (m : PyStr) (ls : List PyStr) : List PyStr :=
  ls.map fun l => if m.isPrefixOf l then l.drop m.length else l

/-- `textwrap.dedent`. -/
def dedent (s : PyStr) : PyStr :=
  let ls := collapseWsLines (splitNL s)
  joinNL (stripMargin (marginOf ls) ls)

/-- The `"\n\n".join(f"- {d}" for d in retrieved_docs)` context block. -/
def context_block : List PyStr → PyStr
  | [] => []
  | [d] => lit "- " ++ d
  | d :: d2 :: ds => lit "- " ++ d ++ '\n' :: '\n' :: context_block (d2 :: ds)

/-- The raw f-string inside `call_llama_with_context`, before `dedent`
and `strip`, transcribed byte for byte from the source (the body lines
are indented by eight spaces, the blank lines are empty, and the string
ends with a newline plus the eight spaces preceding the closing
quotes). -/
def rawPromptText (ctx q : PyStr) : PyStr :=
  lit "\n        You are a helpful assistant. Use only the provided context to answer the user's\n        question. If the answer is not in the context, say you don't know.\n\n        Context:\n        "
    ++ ctx
    ++ lit "\n\n        Question: " ++ q
    ++ lit "\n        Answer:\n        "

/-- The prompt built inside `call_llama_with_context`
(`textwrap.dedent(f"""...""").strip()`); the spec calls this
`build_prompt`. -/
def build_prompt (question : PyStr) (retrieved_docs : List PyStr) : PyStr :=
  pyStrip (dedent (rawPromptText (context_block retrieved_docs) question))

/-- Lines contributed to the raw f-string by the second and later
documents: each opens a blank line (from the `"\n\n"` join) followed by
a column-zero bullet line. -/
def tailBulletLines : List PyStr → List PyStr
  | [] => []
  | d :: ds => ([] : PyStr) :: (lit "- " ++ d) :: tailBulletLines ds

/-- The lines of the raw f-string occupied by `{context_block}`: with no
documents the template's eight spaces stand alone, otherwise the first
document continues the eight-space line. -/
def ctxLines : List PyStr → List PyStr
  | [] => [lit "        "]
  | d :: ds => (lit "        - " ++ d) :: tailBulletLines ds

/-- The raw f-string as a list of lines; for newline-free interpolands
this is exactly `splitNL` of `rawPromptText`. -/
def rawLines (q : PyStr) (docs : List PyStr) : List PyStr :=
  ([] : PyStr) ::
    lit "        You are a helpful assistant. Use only the provided context to answer the user's" ::
    lit "        question. If the answer is not in the context, say you don't know." ::
    ([] : PyStr) ::
    lit "        Context:" ::
    (ctxLines docs ++
      [([] : PyStr), lit "        Question: " ++ q, lit "        Answer:", lit "        "])

/-- The flat text the second and later documents contribute to the
context block: `"\n\n- d"` for each. -/
def tailBulletsText : List PyStr → PyStr
  | [] => []
  | d :: ds => lit "\n\n- " ++ d ++ tailBulletsText ds

/-- The finished prompt for an empty document list (newline-free
question): the eight-space template margin is fully removed. -/
def promptZero (q : PyStr) : PyStr :=
  lit "You are a helpful assistant. Use only the provided context to answer the user's\nquestion. If the answer is not in the context, say you don't know.\n\nContext:\n\n\nQuestion: "
    ++ q ++ lit "\nAnswer:"

/-- The finished prompt for a single newline-free document: the
eight-space template margin is fully removed. -/
def promptOne (q d : PyStr) : PyStr :=
  lit "You are a helpful assistant. Use only the provided context to answer the user's\nquestion. If the answer is not in the context, say you don't know.\n\nContext:\n- "
    ++ d ++ lit "\n\nQuestion: " ++ q ++ lit "\nAnswer:"

/-- The finished prompt for two or more newline-free documents: the
common margin is empty, so every template line after the first keeps its
eight-space indentation while later bullet lines sit at column zero. -/
def promptTwoPlus (q d1 : PyStr) (ds : List PyStr) : PyStr :=
  lit "You are a helpful assistant. Use only the provided context to answer the user's\n        question. If the answer is not in the context, say you don't know.\n\n        Context:\n        - "
    ++ d1 ++ tailBulletsText ds ++ lit "\n\n        Question: " ++ q ++ lit "\n        Answer:"

/-- A bullet line: a line carrying the `"- "` marker after optional
indentation. -/
def isBulletLine (l : PyStr) : Bool := (lit "- ").isPrefixOf (l.dropWhile isWsChar)

/-- Number of bullet lines of a string. -/
def bulletLineCount (s : PyStr) : Nat :=
  ((splitNL s).filter isBulletLine).length

/-- Result of a completed subordinate process (`subprocess.run` with
`capture_output=True, text=True, check=False`). -/
structure ProcResult where
  returncode : Int
  stdout : PyStr
  stderr : PyStr

/-- Observable behaviour of the execution environment:
`ollamaOnPath` is whether `shutil.which("ollama")` finds the
executable, and `runOllama` maps the standard-input payload passed to
`subprocess.run(["ollama", "run", "llama3.1"], ...)` to its outcome
(`.error e` models the launch attempt raising an exception whose
`str()` is `e`). -/
structure OllamaEnv where
  ollamaOnPath : Bool
  runOllama : PyStr → Except PyStr ProcResult

/-- The fixed dependency-missing message of
`_ensure_ollama_available`. -/
def ollamaMissingMsg : PyStr :=
  lit "Ollama CLI not found. Please install from https://ollama.com and ensure \"ollama\" is on your PATH."

/-- `_ensure_ollama_available`: `None` if available, else the
human-friendly error string. -/
def ensure_ollama_available (env : OllamaEnv) : Option PyStr :=
  if env.ollamaOnPath then none else some ollamaMissingMsg

/-- Observable outcome of one `call_llama_with_context` call:
`result` is the function's outcome (`.error` would be an uncaught
Python exception escaping the call; `.ok s` is the returned string),
and `attempts` records the standard-input payload of every
`subprocess.run` invocation attempted, in order. -/
structure GenCall where
  result : Except PyStr PyStr
  attempts : List PyStr

/-- `call_llama_with_context(question, retrieved_docs)`. -/
def call_llama_with_context (env : OllamaEnv) (question : PyStr)
    (retrieved_docs : List PyStr) : GenCall :=
  match ensure_ollama_available env with
  | some missing => { result := .ok missing, attempts := [] }
  | none =>
    let prompt := build_prompt question retrieved_docs
    match env.runOllama prompt with
    | .error e =>
      { result := .ok (lit "Failed to invoke Ollama: " ++ e), attempts := [prompt] }
    | .ok proc =>
      if proc.returncode ≠ 0 then
        { result := .ok (lit "Ollama returned non-zero exit code "
            ++ intToStr proc.returncode ++ lit ": " ++ pyStrip proc.stderr),
          attempts := [prompt] }
      else
        { result := .ok (pyStrip proc.stdout), attempts := [prompt] }

/-- One batch insertion observed by the vector store:
`collection.add(documents=..., ids=...)`. -/
structure AddCall where
  documents : List PyStr
  ids : List PyStr
deriving DecidableEq

/-- Failure behaviour of the external chromadb store for one call of
`add_sentences_to_chromadb`: whether client construction/collection
creation raises, and whether the batch `add` raises (with the raised
error value). -/
structure StoreBehavior where
  createErr : Option PyStr
  addErr : Option PyStr

/-- The identifier list `[f"sentence-{i}" for i in range(n)]`. -/
def sentenceIds (n : Nat) : List PyStr :=
  (List.range n).map fun i => lit "sentence-" ++ natToStr i

/-- `add_sentences_to_chromadb(sentences, ...)`.  The Python function
returns the collection; its observable effect on the store is the list
of batch `add` calls it performed, which is what the `.ok` payload
reports.  A store-level exception is not caught anywhere in the
function, so it surfaces as `.error`. -/
def add_sentences_to_chromadb (st : StoreBehavior) (sentences : List PyStr) :
    Except PyStr (List AddCall) :=
  match st.createErr with
  | some e => .error e
  | none =>
    let ids := sentenceIds sentences.length
    match st.addErr with
    | some e => .error e
    | none => .ok [{ documents := sentences, ids := ids }]

set_option maxRecDepth 100000

/-! ## Arithmetic helpers: the decimal rendering is injective -/

theorem natDigitsRev_eq_digits : ∀ fuel n, n ≤ fuel → natDigitsRev fuel n = Nat.digits 10 n := by
  intro fuel
  induction fuel with
  | zero =>
    intro n hn
    have h0 : n = 0 := Nat.le_zero.mp hn
    subst h0
    simp [natDigitsRev]
  | succ fuel ih =>
    intro n hn
    by_cases h0 : n = 0
    · subst h0
      simp [natDigitsRev]
    · have hdiv : n / 10 < n := Nat.div_lt_self (Nat.pos_of_ne_zero h0) (by norm_num)
      simp only [natDigitsRev, if_neg h0]
      rw [ih (n / 10) (by omega),
        ← Nat.digits_def' (by norm_num : (1 : Nat) < 10) (Nat.pos_of_ne_zero h0)]

theorem natToStr_eq (n : Nat) :
    natToStr n = if n = 0 then ['0'] else ((Nat.digits 10 n).map Nat.digitChar).reverse := by
  by_cases h : n = 0 <;> simp [natToStr, h, natDigitsRev_eq_digits n n le_rfl]

theorem digitChar_inj_of_lt (a b : Nat) (ha : a < 10) (hb : b < 10)
    (h : Nat.digitChar a = Nat.digitChar b) : a = b := by
  have key : ∀ x : Fin 10, ∀ y : Fin 10, Nat.digitChar x.val = Nat.digitChar y.val → x = y := by
    decide
  exact congrArg Fin.val (key ⟨a, ha⟩ ⟨b, hb⟩ h)

theorem map_digitChar_inj :
    ∀ l1 l2 : List Nat, (∀ x ∈ l1, x < 10) → (∀ x ∈ l2, x < 10) →
      l1.map Nat.digitChar = l2.map Nat.digitChar → l1 = l2 := by
  intro l1
  induction l1 with
  | nil =>
    intro l2 _ _ h
    cases l2 with
    | nil => rfl
    | cons b bs => simp at h
  | cons a as ih =>
    intro l2 h1 h2 h
    cases l2 with
    | nil => simp at h
    | cons b bs =>
      simp only [List.map_cons, List.cons.injEq] at h
      have hab : a = b :=
        digitChar_inj_of_lt a b (h1 a (by simp)) (h2 b (by simp)) h.1
      subst hab
      have htail := ih bs (fun x hx => h1 x (by simp [hx])) (fun x hx => h2 x (by simp [hx])) h.2
      simp [htail]

theorem natToStr_inj : Function.Injective natToStr := by
  intro a b h
  rw [natToStr_eq, natToStr_eq] at h
  by_cases ha : a = 0 <;> by_cases hb : b = 0
  · omega
  · exfalso
    rw [if_pos ha, if_neg hb] at h
    have h2 : (Nat.digits 10 b).map Nat.digitChar = ['0'] := by
      have := congrArg List.reverse h
      simpa using this.symm
    rcases hd : Nat.digits 10 b with _ | ⟨d, ds⟩
    · rw [hd] at h2; simp at h2
    · rw [hd] at h2
      simp only [List.map_cons, List.cons.injEq] at h2
      have hds : ds = [] := by
        have := h2.2
        cases ds with
        | nil => rfl
        | cons x xs => simp at this
      have hb1 : Nat.digits 10 b = [d] := by rw [hd, hds]
      have hbd : b = d := by
        have h0 := Nat.ofDigits_digits 10 b
        rw [hb1] at h0
        simp [Nat.ofDigits] at h0
        omega
      have hdmem : d ∈ Nat.digits 10 b := by rw [hb1]; simp
      have hd10 : d < 10 := Nat.digits_lt_base (by norm_num) hdmem
      have hd0 : d = 0 := by
        apply digitChar_inj_of_lt d 0 hd10 (by norm_num)
        rw [h2.1]
        decide
      exact hb (by omega)
  · exfalso
    rw [if_neg ha, if_pos hb] at h
    have h2 : (Nat.digits 10 a).map Nat.digitChar = ['0'] := by
      have := congrArg List.reverse h
      simpa using this
    rcases hd : Nat.digits 10 a with _ | ⟨d, ds⟩
    · rw [hd] at h2; simp at h2
    · rw [hd] at h2
      simp only [List.map_cons, List.cons.injEq] at h2
      have hds : ds = [] := by
        have := h2.2
        cases ds with
        | nil => rfl
        | cons x xs => simp at this
      have ha1 : Nat.digits 10 a = [d] := by rw [hd, hds]
      have had : a = d := by
        have h0 := Nat.ofDigits_digits 10 a
        rw [ha1] at h0
        simp [Nat.ofDigits] at h0
        omega
      have hdmem : d ∈ Nat.digits 10 a := by rw [ha1]; simp
      have hd10 : d < 10 := Nat.digits_lt_base (by norm_num) hdmem
      have hd0 : d = 0 := by
        apply digitChar_inj_of_lt d 0 hd10 (by norm_num)
        rw [h2.1]
        decide
      exact ha (by omega)
  · rw [if_neg ha, if_neg hb] at h
    have hrev : (Nat.digits 10 a).map Nat.digitChar = (Nat.digits 10 b).map Nat.digitChar := by
      have := congrArg List.reverse h
      simpa using this
    have hdig : Nat.digits 10 a = Nat.digits 10 b :=
      map_digitChar_inj _ _ (fun x hx => Nat.digits_lt_base (by norm_num) hx)
        (fun x hx => Nat.digits_lt_base (by norm_num) hx) hrev
    exact Nat.digits_inj_iff.mp hdig

theorem sentenceIds_nodup (n : Nat) : (sentenceIds n).Nodup := by
  apply List.Nodup.map ?_ (List.nodup_range n)
  intro a b hab
  exact natToStr_inj (List.append_cancel_left hab)

/-! ## Generation invoker: claims C1 to C4 -/

/-- C1: for every environment behaviour, question and retrieved-document
list, `call_llama_with_context` returns a string and never lets an
exception escape (`.result` is always `.ok`): the dependency-missing
case, the launch-failure case and the non-zero-exit case are each
converted into a returned diagnostic string. -/
theorem C1_call_llama_never_raises (env : OllamaEnv) (q : PyStr) (docs : List PyStr) :
    (env.ollamaOnPath = false ∧
      (call_llama_with_context env q docs).result = .ok ollamaMissingMsg) ∨
    (env.ollamaOnPath = true ∧
      ∃ e, env.runOllama (build_prompt q docs) = .error e ∧
        (call_llama_with_context env q docs).result =
          .ok (lit "Failed to invoke Ollama: " ++ e)) ∨
    (env.ollamaOnPath = true ∧
      ∃ p, env.runOllama (build_prompt q docs) = .ok p ∧ p.returncode ≠ 0 ∧
        (call_llama_with_context env q docs).result =
          .ok (lit "Ollama returned non-zero exit code "
            ++ intToStr p.returncode ++ lit ": " ++ pyStrip p.stderr)) ∨
    (env.ollamaOnPath = true ∧
      ∃ p, env.runOllama (build_prompt q docs) = .ok p ∧ p.returncode = 0 ∧
        (call_llama_with_context env q docs).result = .ok (pyStrip p.stdout)) := by
  cases hop : env.ollamaOnPath
  · left
    exact ⟨rfl, by simp [call_llama_with_context, ensure_ollama_available, hop]⟩
  · cases hr : env.runOllama (build_prompt q docs) with
    | error e =>
      right; left
      exact ⟨rfl, e, rfl,
        by simp [call_llama_with_context, ensure_ollama_available, hop, hr]⟩
    | ok p =>
      by_cases hc : p.returncode = 0
      · right; right; right
        exact ⟨rfl, p, rfl, hc,
          by simp [call_llama_with_context, ensure_ollama_available, hop, hr, hc]⟩
      · right; right; left
        exact ⟨rfl, p, rfl, hc,
          by simp [call_llama_with_context, ensure_ollama_available, hop, hr, hc]⟩

/-- C2: if the ollama executable is absent from the environment,
`call_llama_with_context` returns the fixed dependency-missing message
(naming the dependency and an install pointer) for every question and
document list, and attempts no subordinate process. -/
theorem C2_missing_ollama_fixed_message (env : OllamaEnv) (q : PyStr)
    (docs : List PyStr) (h : env.ollamaOnPath = false) :
    (call_llama_with_context env q docs).result =
      .ok (lit "Ollama CLI not found. Please install from https://ollama.com and ensure \"ollama\" is on your PATH.") ∧
    (call_llama_with_context env q docs).attempts = [] := by
  constructor <;>
    simp [call_llama_with_context, ensure_ollama_available, h, ollamaMissingMsg]

/-- Witness for C2 at a concrete environment whose runner would succeed:
the fixed message is returned anyway and no invocation is attempted. -/
theorem C2_missing_ollama_fixed_message_witness :
    (call_llama_with_context ⟨false, fun _ => .ok ⟨0, lit "hello", []⟩⟩
        (lit "What color is the cat?") [lit "a red cat"]).result =
      .ok (lit "Ollama CLI not found. Please install from https://ollama.com and ensure \"ollama\" is on your PATH.") ∧
    (call_llama_with_context ⟨false, fun _ => .ok ⟨0, lit "hello", []⟩⟩
        (lit "What color is the cat?") [lit "a red cat"]).attempts = [] :=
  C2_missing_ollama_fixed_message _ _ _ rfl

/-- C3: if the subordinate process exits with a non-zero status, the
returned string is a diagnostic containing both the decimal exit code
and the trimmed standard-error content. -/
theorem C3_nonzero_exit_diagnostic (env : OllamaEnv) (q : PyStr) (docs : List PyStr)
    (p : ProcResult) (h1 : env.ollamaOnPath = true)
    (h2 : env.runOllama (build_prompt q docs) = .ok p) (h3 : p.returncode ≠ 0) :
    ∃ s, (call_llama_with_context env q docs).result = .ok s ∧
      intToStr p.returncode <:+: s ∧ pyStrip p.stderr <:+: s := by
  refine ⟨lit "Ollama returned non-zero exit code "
      ++ intToStr p.returncode ++ lit ": " ++ pyStrip p.stderr, ?_, ?_, ?_⟩
  · simp [call_llama_with_context, ensure_ollama_available, h1, h2, h3]
  · exact ⟨lit "Ollama returned non-zero exit code ",
      lit ": " ++ pyStrip p.stderr, by simp⟩
  · exact ⟨lit "Ollama returned non-zero exit code "
      ++ intToStr p.returncode ++ lit ": ", [], by simp⟩

/-- Witness for C3: exit code `1` with stderr `"boom"` yields a returned
string containing both `"1"` and `"boom"`. -/
theorem C3_nonzero_exit_diagnostic_witness :
    ∃ s, (call_llama_with_context ⟨true, fun _ => .ok ⟨1, [], lit "boom"⟩⟩
        (lit "hi") []).result = .ok s ∧
      lit "1" <:+: s ∧ lit "boom" <:+: s := by
  obtain ⟨s, hs, hc, he⟩ :=
    C3_nonzero_exit_diagnostic ⟨true, fun _ => .ok ⟨1, [], lit "boom"⟩⟩
      (lit "hi") [] ⟨1, [], lit "boom"⟩ rfl rfl (by decide)
  refine ⟨s, hs, ?_, ?_⟩
  · have h9 : intToStr ((1 : Int)) = lit "1" := by decide
    simpa [h9] using hc
  · have h9 : pyStrip (lit "boom") = lit "boom" := by decide
    simpa [h9] using he

/-- C4: if the subordinate process exits with status zero,
`call_llama_with_context` returns exactly the standard-output content
with leading and trailing whitespace trimmed. -/
theorem C4_zero_exit_returns_trimmed_stdout (env : OllamaEnv) (q : PyStr)
    (docs : List PyStr) (p : ProcResult) (h1 : env.ollamaOnPath = true)
    (h2 : env.runOllama (build_prompt q docs) = .ok p) (h3 : p.returncode = 0) :
    (call_llama_with_context env q docs).result = .ok (pyStrip p.stdout) := by
  simp [call_llama_with_context, ensure_ollama_available, h1, h2, h3]

/-- Witness for C4: a process producing `"  an answer \n"` on stdout with
exit status zero makes the call return `"an answer"`. -/
theorem C4_zero_exit_returns_trimmed_stdout_witness :
    (call_llama_with_context ⟨true, fun _ => .ok ⟨0, lit "  an answer \n", []⟩⟩
        (lit "hi") [lit "doc"]).result = .ok (lit "an answer") := by
  have h9 := C4_zero_exit_returns_trimmed_stdout
    ⟨true, fun _ => .ok ⟨0, lit "  an answer \n", []⟩⟩ (lit "hi") [lit "doc"]
    ⟨0, lit "  an answer \n", []⟩ rfl rfl rfl
  have h8 : pyStrip (lit "  an answer \n") = lit "an answer" := by decide
  simpa [h8] using h9

/-! ## Indexer: claims C5, C8, C9 -/

/-- C5: for every non-empty document sequence (inserted through a store
whose creation and insertion succeed), `add_sentences_to_chromadb`
performs exactly one batch call carrying the documents together with the
identifiers `sentence-0 .. sentence-(n-1)` generated in input order;
the identifier count equals the document count and the identifiers are
pairwise distinct. -/
theorem C5_ids_in_order_unique_single_batch (st : StoreBehavior)
    (sentences : List PyStr) (_hne : sentences ≠ [])
    (h1 : st.createErr = none) (h2 : st.addErr = none) :
    add_sentences_to_chromadb st sentences =
      .ok [{ documents := sentences, ids := sentenceIds sentences.length }] ∧
    sentenceIds sentences.length =
      (List.range sentences.length).map (fun i => lit "sentence-" ++ natToStr i) ∧
    (sentenceIds sentences.length).length = sentences.length ∧
    (sentenceIds sentences.length).Nodup := by
  refine ⟨?_, rfl, ?_, sentenceIds_nodup _⟩
  · simp [add_sentences_to_chromadb, h1, h2]
  · simp [sentenceIds]

/-- Witness for C5 on two concrete documents: one batch call with ids
`sentence-0`, `sentence-1`. -/
theorem C5_ids_in_order_unique_single_batch_witness :
    add_sentences_to_chromadb ⟨none, none⟩ [lit "a red cat", lit "a blue dog"] =
      .ok [{ documents := [lit "a red cat", lit "a blue dog"],
             ids := [lit "sentence-0", lit "sentence-1"] }] ∧
    [lit "sentence-0", lit "sentence-1"].Nodup := by
  obtain ⟨h1, -, -, h4⟩ :=
    C5_ids_in_order_unique_single_batch ⟨none, none⟩
      [lit "a red cat", lit "a blue dog"] (by decide) rfl rfl
  have h9 : sentenceIds (List.length [lit "a red cat", lit "a blue dog"]) =
      [lit "sentence-0", lit "sentence-1"] := by decide
  rw [h9] at h1 h4
  exact ⟨h1, h4⟩

/-- C8: the empty document sequence succeeds (no fault from this layer)
and performs the single batch insertion with empty document and
identifier lists, producing an empty collection. -/
theorem C8_empty_documents_ok (st : StoreBehavior)
    (h1 : st.createErr = none) (h2 : st.addErr = none) :
    add_sentences_to_chromadb st [] = .ok [{ documents := [], ids := [] }] := by
  simp [add_sentences_to_chromadb, h1, h2, sentenceIds]

/-- Witness for C8 at the store that behaves normally. -/
theorem C8_empty_documents_ok_witness :
    add_sentences_to_chromadb ⟨none, none⟩ [] = .ok [{ documents := [], ids := [] }] :=
  C8_empty_documents_ok ⟨none, none⟩ rfl rfl

/-- C9: a failure raised by the store during collection creation or
during the batch insertion is not caught by `add_sentences_to_chromadb`:
the very error value propagates to the caller, with no retry and no
conversion into a returned string. -/
theorem C9_store_failures_propagate (st : StoreBehavior) (sentences : List PyStr) :
    (∀ e, st.createErr = some e →
      add_sentences_to_chromadb st sentences = .error e) ∧
    (∀ e, st.createErr = none → st.addErr = some e →
      add_sentences_to_chromadb st sentences = .error e) := by
  constructor
  · intro e h
    simp [add_sentences_to_chromadb, h]
  · intro e h1 h2
    simp [add_sentences_to_chromadb, h1, h2]

/-- Witness for C9: a creation failure and an insertion failure each
propagate unchanged on a concrete input. -/
theorem C9_store_failures_propagate_witness :
    add_sentences_to_chromadb ⟨some (lit "db down"), none⟩ [lit "a red cat"] =
      .error (lit "db down") ∧
    add_sentences_to_chromadb ⟨none, some (lit "insert failed")⟩ [lit "a red cat"] =
      .error (lit "insert failed") :=
  ⟨(C9_store_failures_propagate ⟨some (lit "db down"), none⟩ [lit "a red cat"]).1
      (lit "db down") rfl,
    (C9_store_failures_propagate ⟨none, some (lit "insert failed")⟩ [lit "a red cat"]).2
      (lit "insert failed") rfl rfl⟩

/-! ## Line machinery for the prompt-shape claims -/

theorem splitNL_ne_nil (s : PyStr) : splitNL s ≠ [] := by
  cases s with
  | nil => simp [splitNL]
  | cons c rest =>
    simp only [splitNL]
    cases h : splitNL rest with
    | nil => simp
    | cons l ls => by_cases hc : c = '\n' <;> simp [hc]

theorem splitNL_no_newline (l : PyStr) (hl : '\n' ∉ l) : splitNL l = [l] := by
  induction l with
  | nil => simp [splitNL]
  | cons c rest ih =>
    have hc : c ≠ '\n' := fun h => hl (h ▸ List.mem_cons_self c rest)
    have hr : '\n' ∉ rest := fun h => hl (List.mem_cons_of_mem c h)
    simp only [splitNL, ih hr]
    simp [hc]

theorem splitNL_line_append (l : PyStr) (hl : '\n' ∉ l) (t : PyStr) :
    splitNL (l ++ '\n' :: t) = l :: splitNL t := by
  induction l with
  | nil =>
    simp only [List.nil_append, splitNL]
    cases h : splitNL t with
    | nil => exact absurd h (splitNL_ne_nil t)
    | cons x xs => simp
  | cons c rest ih =>
    have hc : c ≠ '\n' := fun h => hl (h ▸ List.mem_cons_self c rest)
    have hr : '\n' ∉ rest := fun h => hl (List.mem_cons_of_mem c h)
    rw [List.cons_append]
    simp only [splitNL]
    rw [ih hr]
    simp [hc]

theorem splitNL_joinNL (ls : List PyStr) (hne : ls ≠ [])
    (h : ∀ l ∈ ls, '\n' ∉ l) : splitNL (joinNL ls) = ls := by
  induction ls with
  | nil => exact absurd rfl hne
  | cons l rest ih =>
    cases rest with
    | nil => exact splitNL_no_newline l (h l (by simp))
    | cons l2 rest2 =>
      have hl : '\n' ∉ l := h l (by simp)
      simp only [joinNL, splitNL_line_append l hl]
      rw [ih (by simp) (fun x hx => h x (List.mem_cons_of_mem l hx))]

/-- `textwrap.dedent` acts linewise on a join of newline-free lines. -/
theorem dedent_joinNL (ls : List PyStr) (hne : ls ≠ [])
    (h : ∀ l ∈ ls, '\n' ∉ l) :
    dedent (joinNL ls) =
      joinNL (stripMargin (marginOf (collapseWsLines ls)) (collapseWsLines ls)) := by
  rw [dedent, splitNL_joinNL ls hne h]

theorem commonStart_nil_left (x : PyStr) : commonStart [] x = [] := by
  cases x <;> rfl

theorem foldl_marginStep_nil_acc (ls : List PyStr) :
    List.foldl marginStep (some []) ls = some [] := by
  induction ls with
  | nil => rfl
  | cons l rest ih =>
    have hstep : marginStep (some []) l = some [] := by
      by_cases hws : l.all isWsChar
      · simp [marginStep, hws]
      · simp [marginStep, hws, commonStart_nil_left]
    rw [List.foldl_cons, hstep, ih]

theorem stripMargin_nil (ls : List PyStr) : stripMargin [] ls = ls := by
  simp [stripMargin, List.isPrefixOf]

theorem isWsOnlyLine_append_left (a b : PyStr) (h : a.all isWsChar = false) :
    isWsOnlyLine (a ++ b) = false := by
  simp [isWsOnlyLine, List.all_append, h]

theorem takeWhile_append_all (p : Char → Bool) (a b : PyStr)
    (h : ∀ c ∈ a, p c = true) : (a ++ b).takeWhile p = a ++ b.takeWhile p := by
  induction a with
  | nil => simp
  | cons c rest ih =>
    have hc := h c (by simp)
    simp only [List.cons_append, List.takeWhile_cons, hc]
    simp [ih (fun x hx => h x (List.mem_cons_of_mem c hx))]

theorem leadingWs_shape (a : PyStr) (c : Char) (x b : PyStr)
    (ha : ∀ y ∈ a, isWsChar y = true) (hc : isWsChar c = false) :
    leadingWs ((a ++ c :: x) ++ b) = a := by
  rw [leadingWs, List.append_assoc, takeWhile_append_all isWsChar a (c :: x ++ b) ha]
  simp [List.takeWhile_cons, hc]

theorem isPrefixOf_append_self (a b : PyStr) : a.isPrefixOf (a ++ b) = true := by
  induction a with
  | nil => simp [List.isPrefixOf]
  | cons c rest ih => simp [List.isPrefixOf, ih]

theorem lstrip_cons_ws (c : Char) (x : PyStr) (h : isPyWs c = true) :
    lstrip (c :: x) = lstrip x := by
  simp [lstrip, List.dropWhile_cons, h]

theorem lstrip_cons_nonws (c : Char) (x : PyStr) (h : isPyWs c = false) :
    lstrip (c :: x) = c :: x := by
  simp [lstrip, List.dropWhile_cons, h]

theorem rstrip_append_ws (x : PyStr) (c : Char) (h : isPyWs c = true) :
    rstrip (x ++ [c]) = rstrip x := by
  simp [rstrip, List.reverse_append, List.dropWhile_cons, h]

theorem rstrip_append_nonws (x : PyStr) (c : Char) (h : isPyWs c = false) :
    rstrip (x ++ [c]) = x ++ [c] := by
  simp [rstrip, List.reverse_append, List.dropWhile_cons, h]

theorem raw_eq_zero (q : PyStr) :
    rawPromptText (context_block []) q = joinNL (rawLines q []) := by
  have epre : lit "\n        You are a helpful assistant. Use only the provided context to answer the user's\n        question. If the answer is not in the context, say you don't know.\n\n        Context:\n        " ++ lit "\n\n        Question: " =
      '\n' :: (lit "        You are a helpful assistant. Use only the provided context to answer the user's" ++ '\n' :: (lit "        question. If the answer is not in the context, say you don't know." ++ '\n' :: ('\n' :: (lit "        Context:" ++ '\n' :: (lit "        " ++ '\n' :: ('\n' :: lit "        Question: ")))))) := by
    decide
  have esuf : lit "\n        Answer:\n        " =
      '\n' :: (lit "        Answer:" ++ '\n' :: lit "        ") := by decide
  simp only [rawPromptText, context_block, rawLines, ctxLines, joinNL,
    List.append_nil, List.nil_append, List.cons_append, List.append_assoc]
  rw [← List.append_assoc, epre, esuf]
  simp [List.append_assoc]

theorem collapse_zero (q : PyStr) :
    collapseWsLines (rawLines q []) =
      ([] : PyStr) ::
        lit "        You are a helpful assistant. Use only the provided context to answer the user's" ::
        lit "        question. If the answer is not in the context, say you don't know." ::
        ([] : PyStr) ::
        lit "        Context:" ::
        ([] : PyStr) ::
        ([] : PyStr) ::
        (lit "        Question: " ++ q) ::
        lit "        Answer:" :: [([] : PyStr)] := by
  simp only [collapseWsLines, rawLines, ctxLines, List.map_cons, List.map_append,
    List.map_nil, List.cons_append, List.nil_append]
  rw [isWsOnlyLine_append_left (lit "        Question: ") q (by decide)]
  norm_num [List.cons.injEq]
  refine ⟨by decide, by decide, by decide, by decide, by decide, by decide⟩

theorem all_ws_append_false (a b : PyStr) (h : a.all isWsChar = false) :
    (a ++ b).all isWsChar = false := by
  rw [List.all_append, h, Bool.false_and]

theorem leadingWs_question (q : PyStr) :
    leadingWs (lit "        Question: " ++ q) = lit "        " := by
  rw [show lit "        Question: " = lit "        " ++ 'Q' :: lit "uestion: " from by decide]
  exact leadingWs_shape _ _ _ _ (by decide) (by decide)

theorem margin_zero (q : PyStr) :
    marginOf (collapseWsLines (rawLines q [])) = lit "        " := by
  rw [collapse_zero]
  have s1 : marginStep none ([] : PyStr) = none := by decide
  have s2 : marginStep none
      (lit "        You are a helpful assistant. Use only the provided context to answer the user's") =
      some (lit "        ") := by decide
  have s3 : marginStep (some (lit "        "))
      (lit "        question. If the answer is not in the context, say you don't know.") =
      some (lit "        ") := by decide
  have s4 : marginStep (some (lit "        ")) ([] : PyStr) = some (lit "        ") := by decide
  have s5 : marginStep (some (lit "        ")) (lit "        Context:") =
      some (lit "        ") := by decide
  have s6 : marginStep (some (lit "        ")) (lit "        Question: " ++ q) =
      some (lit "        ") := by
    unfold marginStep
    rw [all_ws_append_false _ _ (by decide), leadingWs_question]
    simp
    decide
  have s7 : marginStep (some (lit "        ")) (lit "        Answer:") =
      some (lit "        ") := by decide
  simp only [marginOf, List.foldl_cons, List.foldl_nil, s1, s2, s3, s4, s5, s6, s7]
  rfl

theorem stripMargin_take (m x : PyStr) :
    (if m.isPrefixOf (m ++ x) then (m ++ x).drop m.length else m ++ x) = x := by
  rw [isPrefixOf_append_self]
  simp [List.drop_left]

theorem strip_zero (q : PyStr) :
    stripMargin (lit "        ")
      (([] : PyStr) ::
        lit "        You are a helpful assistant. Use only the provided context to answer the user's" ::
        lit "        question. If the answer is not in the context, say you don't know." ::
        ([] : PyStr) ::
        lit "        Context:" ::
        ([] : PyStr) ::
        ([] : PyStr) ::
        (lit "        Question: " ++ q) ::
        lit "        Answer:" :: [([] : PyStr)]) =
      ([] : PyStr) ::
        lit "You are a helpful assistant. Use only the provided context to answer the user's" ::
        lit "question. If the answer is not in the context, say you don't know." ::
        ([] : PyStr) ::
        lit "Context:" ::
        ([] : PyStr) ::
        ([] : PyStr) ::
        (lit "Question: " ++ q) ::
        lit "Answer:" :: [([] : PyStr)] := by
  simp only [stripMargin, List.map_cons, List.map_nil]
  rw [show lit "        Question: " ++ q = lit "        " ++ (lit "Question: " ++ q) from by
    rw [show lit "        Question: " = lit "        " ++ lit "Question: " from by decide,
      List.append_assoc]]
  rw [stripMargin_take]
  simp +decide

theorem lstrip_fixed_of_head_nonws (c : Char) (a b : PyStr) (hc : isPyWs c = false) :
    lstrip ((c :: a) ++ b) = (c :: a) ++ b := by
  rw [List.cons_append]
  exact lstrip_cons_nonws c (a ++ b) hc

theorem pyStrip_wrapped (x : PyStr) (c : Char) (a b : PyStr)
    (hx : x = (c :: a) ++ b)
    (hc : isPyWs c = false)
    (hr : rstrip x = x) :
    pyStrip ('\n' :: (x ++ ['\n'])) = x := by
  unfold pyStrip
  rw [lstrip_cons_ws '\n' _ (by decide)]
  have h1 : lstrip (x ++ ['\n']) = x ++ ['\n'] := by
    conv_lhs => rw [hx, List.append_assoc]
    rw [lstrip_fixed_of_head_nonws c _ _ hc, ← List.append_assoc, ← hx]
  rw [h1, rstrip_append_ws x '\n' (by decide), hr]

theorem join_zero (q : PyStr) :
    joinNL
      (([] : PyStr) ::
        lit "You are a helpful assistant. Use only the provided context to answer the user's" ::
        lit "question. If the answer is not in the context, say you don't know." ::
        ([] : PyStr) ::
        lit "Context:" ::
        ([] : PyStr) ::
        ([] : PyStr) ::
        (lit "Question: " ++ q) ::
        lit "Answer:" :: [([] : PyStr)]) =
      '\n' :: (promptZero q ++ ['\n']) := by
  have epre : lit "You are a helpful assistant. Use only the provided context to answer the user's\nquestion. If the answer is not in the context, say you don't know.\n\nContext:\n\n\nQuestion: " =
      lit "You are a helpful assistant. Use only the provided context to answer the user's" ++
        '\n' :: (lit "question. If the answer is not in the context, say you don't know." ++
          '\n' :: ('\n' :: (lit "Context:" ++
            '\n' :: ('\n' :: ('\n' :: lit "Question: "))))) := by decide
  simp only [joinNL, promptZero, List.nil_append, List.cons_append]
  rw [epre, show lit "\nAnswer:" = '\n' :: lit "Answer:" from by decide]
  simp [List.append_assoc]

theorem rstrip_promptZero (q : PyStr) : rstrip (promptZero q) = promptZero q := by
  have e : promptZero q =
      (lit "You are a helpful assistant. Use only the provided context to answer the user's\nquestion. If the answer is not in the context, say you don't know.\n\nContext:\n\n\nQuestion: "
        ++ (q ++ lit "\nAnswer")) ++ [':'] := by
    simp only [promptZero]
    rw [show lit "\nAnswer:" = lit "\nAnswer" ++ [':'] from by decide]
    simp [List.append_assoc]
  rw [e, rstrip_append_nonws _ _ (by decide)]

theorem build_prompt_zero (q : PyStr) (hq : '\n' ∉ q) :
    build_prompt q [] = promptZero q := by
  have hlines : ∀ l ∈ rawLines q [], '\n' ∉ l := by
    intro l hl
    simp only [rawLines, ctxLines, List.cons_append, List.nil_append, List.mem_cons,
      List.not_mem_nil, or_false] at hl
    rcases hl with rfl | rfl | rfl | rfl | rfl | rfl | rfl | rfl | rfl | rfl
    · simp
    · decide
    · decide
    · simp
    · decide
    · decide
    · simp
    · rw [List.mem_append]
      rintro (h | h)
      · exact absurd h (by decide)
      · exact hq h
    · decide
    · decide
  have step1 : build_prompt q [] =
      pyStrip (joinNL (stripMargin (marginOf (collapseWsLines (rawLines q [])))
        (collapseWsLines (rawLines q [])))) := by
    rw [build_prompt, raw_eq_zero,
      dedent_joinNL (rawLines q []) (by simp [rawLines]) hlines]
  rw [step1, margin_zero, collapse_zero, strip_zero, join_zero]
  apply pyStrip_wrapped _ 'Y'
    (lit "ou are a helpful assistant. Use only the provided context to answer the user's\nquestion. If the answer is not in the context, say you don't know.\n\nContext:\n\n\nQuestion: ")
    (q ++ lit "\nAnswer:")
  · rw [promptZero, show lit "You are a helpful assistant. Use only the provided context to answer the user's\nquestion. If the answer is not in the context, say you don't know.\n\nContext:\n\n\nQuestion: " =
      'Y' :: lit "ou are a helpful assistant. Use only the provided context to answer the user's\nquestion. If the answer is not in the context, say you don't know.\n\nContext:\n\n\nQuestion: " from by decide]
    simp [List.append_assoc]
  · decide
  · exact rstrip_promptZero q

theorem raw_eq_one (q d : PyStr) :
    rawPromptText (context_block [d]) q = joinNL (rawLines q [d]) := by
  have epre : lit "\n        You are a helpful assistant. Use only the provided context to answer the user's\n        question. If the answer is not in the context, say you don't know.\n\n        Context:\n        " ++ lit "- " =
      '\n' :: (lit "        You are a helpful assistant. Use only the provided context to answer the user's" ++ '\n' :: (lit "        question. If the answer is not in the context, say you don't know." ++ '\n' :: ('\n' :: (lit "        Context:" ++ '\n' :: lit "        - ")))) := by
    decide
  have emid : lit "\n\n        Question: " = '\n' :: ('\n' :: lit "        Question: ") := by
    decide
  have esuf : lit "\n        Answer:\n        " =
      '\n' :: (lit "        Answer:" ++ '\n' :: lit "        ") := by decide
  simp only [rawPromptText, context_block, rawLines, ctxLines, tailBulletLines, joinNL,
    List.append_nil, List.nil_append, List.cons_append, List.append_assoc]
  rw [← List.append_assoc, epre, emid, esuf]
  simp [List.append_assoc]

theorem collapse_one (q d : PyStr) :
    collapseWsLines (rawLines q [d]) =
      ([] : PyStr) ::
        lit "        You are a helpful assistant. Use only the provided context to answer the user's" ::
        lit "        question. If the answer is not in the context, say you don't know." ::
        ([] : PyStr) ::
        lit "        Context:" ::
        (lit "        - " ++ d) ::
        ([] : PyStr) ::
        (lit "        Question: " ++ q) ::
        lit "        Answer:" :: [([] : PyStr)] := by
  simp only [collapseWsLines, rawLines, ctxLines, tailBulletLines, List.map_cons,
    List.map_append, List.map_nil, List.cons_append, List.nil_append]
  rw [isWsOnlyLine_append_left (lit "        Question: ") q (by decide),
    isWsOnlyLine_append_left (lit "        - ") d (by decide)]
  simp +decide

theorem leadingWs_bullet_one (d : PyStr) :
    leadingWs (lit "        - " ++ d) = lit "        " := by
  rw [show lit "        - " = lit "        " ++ '-' :: lit " " from by decide]
  exact leadingWs_shape _ _ _ _ (by decide) (by decide)

theorem margin_one (q d : PyStr) :
    marginOf (collapseWsLines (rawLines q [d])) = lit "        " := by
  rw [collapse_one]
  have s1 : marginStep none ([] : PyStr) = none := by decide
  have s2 : marginStep none
      (lit "        You are a helpful assistant. Use only the provided context to answer the user's") =
      some (lit "        ") := by decide
  have s3 : marginStep (some (lit "        "))
      (lit "        question. If the answer is not in the context, say you don't know.") =
      some (lit "        ") := by decide
  have s4 : marginStep (some (lit "        ")) ([] : PyStr) = some (lit "        ") := by decide
  have s5 : marginStep (some (lit "        ")) (lit "        Context:") =
      some (lit "        ") := by decide
  have s6 : marginStep (some (lit "        ")) (lit "        Question: " ++ q) =
      some (lit "        ") := by
    unfold marginStep
    rw [all_ws_append_false _ _ (by decide), leadingWs_question]
    simp
    decide
  have s7 : marginStep (some (lit "        ")) (lit "        Answer:") =
      some (lit "        ") := by decide
  have s8 : marginStep (some (lit "        ")) (lit "        - " ++ d) =
      some (lit "        ") := by
    unfold marginStep
    rw [all_ws_append_false _ _ (by decide), leadingWs_bullet_one]
    simp
    decide
  simp only [marginOf, List.foldl_cons, List.foldl_nil, s1, s2, s3, s4, s5, s6, s7, s8]
  rfl

theorem strip_one (q d : PyStr) :
    stripMargin (lit "        ")
      (([] : PyStr) ::
        lit "        You are a helpful assistant. Use only the provided context to answer the user's" ::
        lit "        question. If the answer is not in the context, say you don't know." ::
        ([] : PyStr) ::
        lit "        Context:" ::
        (lit "        - " ++ d) ::
        ([] : PyStr) ::
        (lit "        Question: " ++ q) ::
        lit "        Answer:" :: [([] : PyStr)]) =
      ([] : PyStr) ::
        lit "You are a helpful assistant. Use only the provided context to answer the user's" ::
        lit "question. If the answer is not in the context, say you don't know." ::
        ([] : PyStr) ::
        lit "Context:" ::
        (lit "- " ++ d) ::
        ([] : PyStr) ::
        (lit "Question: " ++ q) ::
        lit "Answer:" :: [([] : PyStr)] := by
  simp only [stripMargin, List.map_cons, List.map_nil]
  rw [show lit "        Question: " ++ q = lit "        " ++ (lit "Question: " ++ q) from by
    rw [show lit "        Question: " = lit "        " ++ lit "Question: " from by decide,
      List.append_assoc]]
  rw [show lit "        - " ++ d = lit "        " ++ (lit "- " ++ d) from by
    rw [show lit "        - " = lit "        " ++ lit "- " from by decide,
      List.append_assoc]]
  rw [stripMargin_take, stripMargin_take]
  simp +decide

theorem join_one (q d : PyStr) :
    joinNL
      (([] : PyStr) ::
        lit "You are a helpful assistant. Use only the provided context to answer the user's" ::
        lit "question. If the answer is not in the context, say you don't know." ::
        ([] : PyStr) ::
        lit "Context:" ::
        (lit "- " ++ d) ::
        ([] : PyStr) ::
        (lit "Question: " ++ q) ::
        lit "Answer:" :: [([] : PyStr)]) =
      '\n' :: (promptOne q d ++ ['\n']) := by
  have epre : lit "You are a helpful assistant. Use only the provided context to answer the user's\nquestion. If the answer is not in the context, say you don't know.\n\nContext:\n- " =
      lit "You are a helpful assistant. Use only the provided context to answer the user's" ++
        '\n' :: (lit "question. If the answer is not in the context, say you don't know." ++
          '\n' :: ('\n' :: (lit "Context:" ++ '\n' :: lit "- "))) := by decide
  simp only [joinNL, promptOne, List.nil_append, List.cons_append]
  rw [epre, show lit "\n\nQuestion: " = '\n' :: ('\n' :: lit "Question: ") from by decide,
    show lit "\nAnswer:" = '\n' :: lit "Answer:" from by decide]
  simp [List.append_assoc]

theorem rstrip_promptOne (q d : PyStr) : rstrip (promptOne q d) = promptOne q d := by
  have e : promptOne q d =
      (lit "You are a helpful assistant. Use only the provided context to answer the user's\nquestion. If the answer is not in the context, say you don't know.\n\nContext:\n- "
        ++ (d ++ (lit "\n\nQuestion: " ++ (q ++ lit "\nAnswer")))) ++ [':'] := by
    simp only [promptOne]
    rw [show lit "\nAnswer:" = lit "\nAnswer" ++ [':'] from by decide]
    simp [List.append_assoc]
  rw [e, rstrip_append_nonws _ _ (by decide)]

theorem build_prompt_one (q d : PyStr) (hq : '\n' ∉ q) (hd : '\n' ∉ d) :
    build_prompt q [d] = promptOne q d := by
  have hlines : ∀ l ∈ rawLines q [d], '\n' ∉ l := by
    intro l hl
    simp only [rawLines, ctxLines, tailBulletLines, List.cons_append, List.nil_append,
      List.mem_cons, List.not_mem_nil, or_false] at hl
    rcases hl with rfl | rfl | rfl | rfl | rfl | rfl | rfl | rfl | rfl | rfl
    · simp
    · decide
    · decide
    · simp
    · decide
    · rw [List.mem_append]
      rintro (h | h)
      · exact absurd h (by decide)
      · exact hd h
    · simp
    · rw [List.mem_append]
      rintro (h | h)
      · exact absurd h (by decide)
      · exact hq h
    · decide
    · decide
  have step1 : build_prompt q [d] =
      pyStrip (joinNL (stripMargin (marginOf (collapseWsLines (rawLines q [d])))
        (collapseWsLines (rawLines q [d])))) := by
    rw [build_prompt, raw_eq_one,
      dedent_joinNL (rawLines q [d]) (by simp [rawLines]) hlines]
  rw [step1, margin_one, collapse_one, strip_one, join_one]
  apply pyStrip_wrapped _ 'Y'
    (lit "ou are a helpful assistant. Use only the provided context to answer the user's\nquestion. If the answer is not in the context, say you don't know.\n\nContext:\n- ")
    (d ++ (lit "\n\nQuestion: " ++ (q ++ lit "\nAnswer:")))
  · rw [promptOne, show lit "You are a helpful assistant. Use only the provided context to answer the user's\nquestion. If the answer is not in the context, say you don't know.\n\nContext:\n- " =
      'Y' :: lit "ou are a helpful assistant. Use only the provided context to answer the user's\nquestion. If the answer is not in the context, say you don't know.\n\nContext:\n- " from by decide]
    simp [List.append_assoc]
  · decide
  · exact rstrip_promptOne q d

theorem ctx_unfold : ∀ (ds : List PyStr) (d1 : PyStr),
    context_block (d1 :: ds) = lit "- " ++ d1 ++ tailBulletsText ds := by
  intro ds
  induction ds with
  | nil => intro d1; simp [context_block, tailBulletsText]
  | cons d2 ds2 ih =>
    intro d1
    simp only [context_block, tailBulletsText]
    rw [ih d2, show lit "\n\n- " = '\n' :: '\n' :: lit "- " from by decide]
    simp [List.append_assoc]

theorem joinNL_tailBullets : ∀ (ds : List PyStr) (x : PyStr) (S : List PyStr), S ≠ [] →
    joinNL (x :: (tailBulletLines ds ++ S)) =
      x ++ (tailBulletsText ds ++ '\n' :: joinNL S) := by
  intro ds
  induction ds with
  | nil =>
    intro x S hS
    cases S with
    | nil => exact absurd rfl hS
    | cons s S2 => simp [joinNL, tailBulletsText, tailBulletLines]
  | cons d ds2 ih =>
    intro x S hS
    simp only [tailBulletLines, List.cons_append, joinNL, List.nil_append, List.append_eq]
    rw [ih (lit "- " ++ d) S hS]
    simp only [tailBulletsText]
    rw [show lit "\n\n- " = '\n' :: '\n' :: lit "- " from by decide]
    simp [List.append_assoc]

theorem collapse_tailBullets : ∀ ds : List PyStr,
    collapseWsLines (tailBulletLines ds) = tailBulletLines ds := by
  intro ds
  induction ds with
  | nil => rfl
  | cons d ds2 ih =>
    simp only [tailBulletLines, collapseWsLines, List.map_cons] at ih ⊢
    rw [isWsOnlyLine_append_left (lit "- ") d (by decide)]
    simp only [ih]
    simp +decide

theorem raw_eq_cons (q d1 : PyStr) (ds : List PyStr) :
    rawPromptText (context_block (d1 :: ds)) q = joinNL (rawLines q (d1 :: ds)) := by
  have epre : lit "\n        You are a helpful assistant. Use only the provided context to answer the user's\n        question. If the answer is not in the context, say you don't know.\n\n        Context:\n        " ++ lit "- " =
      '\n' :: (lit "        You are a helpful assistant. Use only the provided context to answer the user's" ++ '\n' :: (lit "        question. If the answer is not in the context, say you don't know." ++ '\n' :: ('\n' :: (lit "        Context:" ++ '\n' :: lit "        - ")))) := by
    decide
  rw [ctx_unfold]
  simp only [rawLines, ctxLines, List.cons_append, List.append_eq]
  simp only [joinNL]
  rw [joinNL_tailBullets ds _ _ (by simp)]
  simp only [joinNL, rawPromptText, List.nil_append]
  rw [show lit "\n\n        Question: " = '\n' :: ('\n' :: lit "        Question: ") from by decide,
    show lit "\n        Answer:\n        " = '\n' :: (lit "        Answer:" ++ '\n' :: lit "        ") from by decide]
  simp only [List.append_assoc]
  rw [← List.append_assoc (lit "\n        You are a helpful assistant. Use only the provided context to answer the user's\n        question. If the answer is not in the context, say you don't know.\n\n        Context:\n        ") (lit "- "),
    epre]
  rw [show lit "        - " = lit "        " ++ lit "- " from by decide]
  simp [List.append_assoc]

theorem collapse_cons (q d1 : PyStr) (ds : List PyStr) :
    collapseWsLines (rawLines q (d1 :: ds)) =
      ([] : PyStr) ::
        lit "        You are a helpful assistant. Use only the provided context to answer the user's" ::
        lit "        question. If the answer is not in the context, say you don't know." ::
        ([] : PyStr) ::
        lit "        Context:" ::
        ((lit "        - " ++ d1) ::
          (tailBulletLines ds ++
            [([] : PyStr), lit "        Question: " ++ q, lit "        Answer:", ([] : PyStr)])) := by
  simp only [rawLines, ctxLines, collapseWsLines, List.map_cons, List.map_append, List.cons_append]
  rw [← collapseWsLines, ← collapseWsLines, collapse_tailBullets]
  simp only [collapseWsLines, List.map_cons, List.map_nil]
  rw [isWsOnlyLine_append_left (lit "        Question: ") q (by decide),
    isWsOnlyLine_append_left (lit "        - ") d1 (by decide)]
  simp +decide

theorem leadingWs_bullet_zero (d : PyStr) : leadingWs (lit "- " ++ d) = [] := by
  rw [show lit "- " = ([] : PyStr) ++ '-' :: lit " " from by decide]
  exact leadingWs_shape _ _ _ _ (by simp) (by decide)

theorem margin_two (q d1 d2 : PyStr) (rest : List PyStr) :
    marginOf (collapseWsLines (rawLines q (d1 :: d2 :: rest))) = [] := by
  rw [collapse_cons]
  have s1 : marginStep none ([] : PyStr) = none := by decide
  have s2 : marginStep none
      (lit "        You are a helpful assistant. Use only the provided context to answer the user's") =
      some (lit "        ") := by decide
  have s3 : marginStep (some (lit "        "))
      (lit "        question. If the answer is not in the context, say you don't know.") =
      some (lit "        ") := by decide
  have s4 : marginStep (some (lit "        ")) ([] : PyStr) = some (lit "        ") := by decide
  have s5 : marginStep (some (lit "        ")) (lit "        Context:") =
      some (lit "        ") := by decide
  have s6 : marginStep (some (lit "        ")) (lit "        - " ++ d1) =
      some (lit "        ") := by
    unfold marginStep
    rw [all_ws_append_false _ _ (by decide), leadingWs_bullet_one]
    simp
    decide
  have s7 : marginStep (some (lit "        ")) (lit "- " ++ d2) = some ([] : PyStr) := by
    unfold marginStep
    rw [all_ws_append_false _ _ (by decide), leadingWs_bullet_zero]
    simp
    decide
  simp only [tailBulletLines, List.cons_append, marginOf, List.foldl_cons,
    s1, s2, s3, s4, s5, s6, s7]
  rw [foldl_marginStep_nil_acc]
  rfl

theorem join_two (q d1 : PyStr) (ds : List PyStr) :
    joinNL
      (([] : PyStr) ::
        lit "        You are a helpful assistant. Use only the provided context to answer the user's" ::
        lit "        question. If the answer is not in the context, say you don't know." ::
        ([] : PyStr) ::
        lit "        Context:" ::
        ((lit "        - " ++ d1) ::
          (tailBulletLines ds ++
            [([] : PyStr), lit "        Question: " ++ q, lit "        Answer:", ([] : PyStr)]))) =
      '\n' :: (lit "        " ++ (promptTwoPlus q d1 ds ++ ['\n'])) := by
  have e1 : lit "        " ++ lit "You are a helpful assistant. Use only the provided context to answer the user's\n        question. If the answer is not in the context, say you don't know.\n\n        Context:\n        - " =
      lit "        You are a helpful assistant. Use only the provided context to answer the user's" ++
        '\n' :: (lit "        question. If the answer is not in the context, say you don't know." ++
          '\n' :: ('\n' :: (lit "        Context:" ++ '\n' :: lit "        - "))) := by decide
  simp only [joinNL]
  rw [joinNL_tailBullets ds _ _ (by simp)]
  simp only [joinNL, promptTwoPlus, List.nil_append]
  rw [show lit "\n\n        Question: " = '\n' :: ('\n' :: lit "        Question: ") from by decide,
    show lit "\n        Answer:" = '\n' :: lit "        Answer:" from by decide]
  simp only [List.append_assoc]
  rw [← List.append_assoc (lit "        ")
      (lit "You are a helpful assistant. Use only the provided context to answer the user's\n        question. If the answer is not in the context, say you don't know.\n\n        Context:\n        - "),
    e1]
  rw [show lit "        - " = lit "        " ++ lit "- " from by decide]
  simp [List.append_assoc]

theorem lstrip_append_all_ws (w y : PyStr) (hw : ∀ c ∈ w, isPyWs c = true) :
    lstrip (w ++ y) = lstrip y := by
  induction w with
  | nil => simp
  | cons c rest ih =>
    rw [List.cons_append, lstrip_cons_ws c _ (hw c (by simp))]
    exact ih fun x hx => hw x (List.mem_cons_of_mem c hx)

theorem pyStrip_wrapped2 (w x : PyStr) (c : Char) (a b : PyStr)
    (hw : ∀ y ∈ w, isPyWs y = true)
    (hx : x = (c :: a) ++ b)
    (hc : isPyWs c = false)
    (hr : rstrip x = x) :
    pyStrip ('\n' :: (w ++ (x ++ ['\n']))) = x := by
  unfold pyStrip
  rw [lstrip_cons_ws '\n' _ (by decide), lstrip_append_all_ws w _ hw]
  have h1 : lstrip (x ++ ['\n']) = x ++ ['\n'] := by
    conv_lhs => rw [hx, List.append_assoc]
    rw [lstrip_fixed_of_head_nonws c _ _ hc, ← List.append_assoc, ← hx]
  rw [h1, rstrip_append_ws x '\n' (by decide), hr]

theorem rstrip_promptTwoPlus (q d1 : PyStr) (ds : List PyStr) :
    rstrip (promptTwoPlus q d1 ds) = promptTwoPlus q d1 ds := by
  have e : promptTwoPlus q d1 ds =
      (lit "You are a helpful assistant. Use only the provided context to answer the user's\n        question. If the answer is not in the context, say you don't know.\n\n        Context:\n        - "
        ++ (d1 ++ (tailBulletsText ds ++ (lit "\n\n        Question: " ++ (q ++ lit "\n        Answer"))))) ++ [':'] := by
    simp only [promptTwoPlus]
    rw [show lit "\n        Answer:" = lit "\n        Answer" ++ [':'] from by decide]
    simp [List.append_assoc]
  rw [e, rstrip_append_nonws _ _ (by decide)]

theorem tailBulletLines_no_newline (ds : List PyStr) (hds : ∀ d ∈ ds, '\n' ∉ d) :
    ∀ l ∈ tailBulletLines ds, '\n' ∉ l := by
  induction ds with
  | nil => simp [tailBulletLines]
  | cons d ds2 ih =>
    intro l hl
    simp only [tailBulletLines, List.mem_cons] at hl
    rcases hl with rfl | rfl | hl
    · simp
    · rw [List.mem_append]
      rintro (h | h)
      · exact absurd h (by decide)
      · exact hds d (by simp) h
    · exact ih (fun x hx => hds x (List.mem_cons_of_mem d hx)) l hl

theorem build_prompt_two (q d1 d2 : PyStr) (rest : List PyStr)
    (hq : '\n' ∉ q) (hd1 : '\n' ∉ d1) (hd2 : '\n' ∉ d2)
    (hrest : ∀ d ∈ rest, '\n' ∉ d) :
    build_prompt q (d1 :: d2 :: rest) = promptTwoPlus q d1 (d2 :: rest) := by
  have htail : ∀ l ∈ tailBulletLines (d2 :: rest), '\n' ∉ l := by
    apply tailBulletLines_no_newline
    intro d hd
    rcases List.mem_cons.mp hd with rfl | hd
    · exact hd2
    · exact hrest d hd
  have hlines : ∀ l ∈ rawLines q (d1 :: d2 :: rest), '\n' ∉ l := by
    intro l hl
    simp only [rawLines, ctxLines, List.cons_append, List.mem_cons, List.mem_append] at hl
    rcases hl with rfl | rfl | rfl | rfl | rfl | rfl | hl | hl
    · simp
    · decide
    · decide
    · simp
    · decide
    · rw [List.mem_append]
      rintro (h | h)
      · exact absurd h (by decide)
      · exact hd1 h
    · exact htail l hl
    · simp only [List.mem_cons, List.not_mem_nil, or_false] at hl
      rcases hl with rfl | rfl | rfl | rfl
      · simp
      · rw [List.mem_append]
        rintro (h | h)
        · exact absurd h (by decide)
        · exact hq h
      · decide
      · decide
  have step1 : build_prompt q (d1 :: d2 :: rest) =
      pyStrip (joinNL (stripMargin (marginOf (collapseWsLines (rawLines q (d1 :: d2 :: rest))))
        (collapseWsLines (rawLines q (d1 :: d2 :: rest))))) := by
    rw [build_prompt, raw_eq_cons,
      dedent_joinNL (rawLines q (d1 :: d2 :: rest)) (by simp [rawLines]) hlines]
  rw [step1, margin_two, stripMargin_nil, collapse_cons, join_two]
  apply pyStrip_wrapped2 _ _ 'Y'
    (lit "ou are a helpful assistant. Use only the provided context to answer the user's\n        question. If the answer is not in the context, say you don't know.\n\n        Context:\n        - ")
    (d1 ++ (tailBulletsText (d2 :: rest) ++ (lit "\n\n        Question: " ++ (q ++ lit "\n        Answer:"))))
  · decide
  · rw [promptTwoPlus, show lit "You are a helpful assistant. Use only the provided context to answer the user's\n        question. If the answer is not in the context, say you don't know.\n\n        Context:\n        - " =
      'Y' :: lit "ou are a helpful assistant. Use only the provided context to answer the user's\n        question. If the answer is not in the context, say you don't know.\n\n        Context:\n        - " from by decide]
    simp [List.append_assoc]
  · decide
  · exact rstrip_promptTwoPlus q d1 (d2 :: rest)

theorem join_p0lines (q : PyStr) :
    joinNL
      (lit "You are a helpful assistant. Use only the provided context to answer the user's" ::
        lit "question. If the answer is not in the context, say you don't know." ::
        ([] : PyStr) ::
        lit "Context:" ::
        ([] : PyStr) ::
        ([] : PyStr) ::
        (lit "Question: " ++ q) :: [lit "Answer:"]) = promptZero q := by
  have epre : lit "You are a helpful assistant. Use only the provided context to answer the user's\nquestion. If the answer is not in the context, say you don't know.\n\nContext:\n\n\nQuestion: " =
      lit "You are a helpful assistant. Use only the provided context to answer the user's" ++
        '\n' :: (lit "question. If the answer is not in the context, say you don't know." ++
          '\n' :: ('\n' :: (lit "Context:" ++ '\n' :: ('\n' :: ('\n' :: lit "Question: "))))) := by decide
  simp only [joinNL, promptZero, List.nil_append]
  rw [epre, show lit "\nAnswer:" = '\n' :: lit "Answer:" from by decide]
  simp [List.append_assoc]

theorem join_p1lines (q d : PyStr) :
    joinNL
      (lit "You are a helpful assistant. Use only the provided context to answer the user's" ::
        lit "question. If the answer is not in the context, say you don't know." ::
        ([] : PyStr) ::
        lit "Context:" ::
        (lit "- " ++ d) ::
        ([] : PyStr) ::
        (lit "Question: " ++ q) :: [lit "Answer:"]) = promptOne q d := by
  have epre : lit "You are a helpful assistant. Use only the provided context to answer the user's\nquestion. If the answer is not in the context, say you don't know.\n\nContext:\n- " =
      lit "You are a helpful assistant. Use only the provided context to answer the user's" ++
        '\n' :: (lit "question. If the answer is not in the context, say you don't know." ++
          '\n' :: ('\n' :: (lit "Context:" ++ '\n' :: lit "- "))) := by decide
  simp only [joinNL, promptOne, List.nil_append]
  rw [epre, show lit "\n\nQuestion: " = '\n' :: ('\n' :: lit "Question: ") from by decide,
    show lit "\nAnswer:" = '\n' :: lit "Answer:" from by decide]
  simp [List.append_assoc]

theorem join_p2lines (q d1 : PyStr) (ds : List PyStr) :
    joinNL
      (lit "You are a helpful assistant. Use only the provided context to answer the user's" ::
        lit "        question. If the answer is not in the context, say you don't know." ::
        ([] : PyStr) ::
        lit "        Context:" ::
        ((lit "        - " ++ d1) ::
          (tailBulletLines ds ++
            [([] : PyStr), lit "        Question: " ++ q, lit "        Answer:"]))) =
      promptTwoPlus q d1 ds := by
  have epre : lit "You are a helpful assistant. Use only the provided context to answer the user's\n        question. If the answer is not in the context, say you don't know.\n\n        Context:\n        - " =
      lit "You are a helpful assistant. Use only the provided context to answer the user's" ++
        '\n' :: (lit "        question. If the answer is not in the context, say you don't know." ++
          '\n' :: ('\n' :: (lit "        Context:" ++ '\n' :: lit "        - "))) := by decide
  simp only [joinNL]
  rw [joinNL_tailBullets ds _ _ (by simp)]
  simp only [joinNL, promptTwoPlus, List.nil_append]
  rw [epre, show lit "\n\n        Question: " = '\n' :: ('\n' :: lit "        Question: ") from by decide,
    show lit "\n        Answer:" = '\n' :: lit "        Answer:" from by decide]
  simp [List.append_assoc]

theorem splitNL_promptZero (q : PyStr) (hq : '\n' ∉ q) :
    splitNL (promptZero q) =
      lit "You are a helpful assistant. Use only the provided context to answer the user's" ::
        lit "question. If the answer is not in the context, say you don't know." ::
        ([] : PyStr) ::
        lit "Context:" ::
        ([] : PyStr) ::
        ([] : PyStr) ::
        (lit "Question: " ++ q) :: [lit "Answer:"] := by
  rw [← join_p0lines q]
  apply splitNL_joinNL _ (by simp)
  intro l hl
  simp only [List.mem_cons, List.not_mem_nil, or_false] at hl
  rcases hl with rfl | rfl | rfl | rfl | rfl | rfl | rfl | rfl
  · decide
  · decide
  · simp
  · decide
  · simp
  · simp
  · rw [List.mem_append]
    rintro (h | h)
    · exact absurd h (by decide)
    · exact hq h
  · decide

theorem splitNL_promptOne (q d : PyStr) (hq : '\n' ∉ q) (hd : '\n' ∉ d) :
    splitNL (promptOne q d) =
      lit "You are a helpful assistant. Use only the provided context to answer the user's" ::
        lit "question. If the answer is not in the context, say you don't know." ::
        ([] : PyStr) ::
        lit "Context:" ::
        (lit "- " ++ d) ::
        ([] : PyStr) ::
        (lit "Question: " ++ q) :: [lit "Answer:"] := by
  rw [← join_p1lines q d]
  apply splitNL_joinNL _ (by simp)
  intro l hl
  simp only [List.mem_cons, List.not_mem_nil, or_false] at hl
  rcases hl with rfl | rfl | rfl | rfl | rfl | rfl | rfl | rfl
  · decide
  · decide
  · simp
  · decide
  · rw [List.mem_append]
    rintro (h | h)
    · exact absurd h (by decide)
    · exact hd h
  · simp
  · rw [List.mem_append]
    rintro (h | h)
    · exact absurd h (by decide)
    · exact hq h
  · decide

theorem splitNL_promptTwoPlus (q d1 : PyStr) (ds : List PyStr)
    (hq : '\n' ∉ q) (hd1 : '\n' ∉ d1) (hds : ∀ d ∈ ds, '\n' ∉ d) :
    splitNL (promptTwoPlus q d1 ds) =
      lit "You are a helpful assistant. Use only the provided context to answer the user's" ::
        lit "        question. If the answer is not in the context, say you don't know." ::
        ([] : PyStr) ::
        lit "        Context:" ::
        ((lit "        - " ++ d1) ::
          (tailBulletLines ds ++
            [([] : PyStr), lit "        Question: " ++ q, lit "        Answer:"])) := by
  rw [← join_p2lines q d1 ds]
  apply splitNL_joinNL _ (by simp)
  intro l hl
  simp only [List.mem_cons, List.mem_append] at hl
  rcases hl with rfl | rfl | rfl | rfl | rfl | hl | hl
  · decide
  · decide
  · simp
  · decide
  · rw [List.mem_append]
    rintro (h | h)
    · exact absurd h (by decide)
    · exact hd1 h
  · exact tailBulletLines_no_newline ds hds l hl
  · simp only [List.mem_cons, List.not_mem_nil, or_false] at hl
    rcases hl with rfl | rfl | rfl
    · simp
    · rw [List.mem_append]
      rintro (h | h)
      · exact absurd h (by decide)
      · exact hq h
    · decide

/-! ## Prompt-shape claims C6, C7, C10 -/

/-- C6 fails as stated: no fixed instruction header, question-verbatim
concatenation describes the prompt for every question and document list,
because `textwrap.dedent` removes a different margin depending on the
document count (the indentation kept with two documents is absent with
zero documents, so the flanking constants cannot be fixed). -/
theorem C6_counterexample :
    ¬ ∃ H M A : PyStr, ∀ (q : PyStr) (docs : List PyStr),
      build_prompt q docs = H ++ (context_block docs ++ (M ++ (q ++ A))) := by
  rintro ⟨H, M, A, h⟩
  have l0 := congrArg List.length (h [] [])
  have l2 := congrArg List.length (h [] [lit "a", lit "b"])
  rw [show (build_prompt [] []).length = 177 from by decide] at l0
  rw [show (build_prompt [] [lit "a", lit "b"]).length = 225 from by decide] at l2
  simp only [List.length_append] at l0 l2
  rw [show (context_block ([] : List PyStr)).length = 0 from by decide] at l0
  rw [show (context_block [lit "a", lit "b"]).length = 8 from by decide] at l2
  simp only [List.length_nil] at l0 l2
  omega

/-- C6 (amended): for document lists with at least two documents, all
documents and the question newline-free, the prompt is exactly a fixed
instruction header (ending in the `Context:` marker and the template
indentation), then the context block (one bullet per document in input
order, blank-line separated), then a fixed `Question: ` connective, then
the question verbatim, then the `Answer:` cue. -/
theorem C6_prompt_concatenation (q d1 d2 : PyStr) (rest : List PyStr)
    (hq : '\n' ∉ q) (hd1 : '\n' ∉ d1) (hd2 : '\n' ∉ d2)
    (hrest : ∀ d ∈ rest, '\n' ∉ d) :
    build_prompt q (d1 :: d2 :: rest) =
      lit "You are a helpful assistant. Use only the provided context to answer the user's\n        question. If the answer is not in the context, say you don't know.\n\n        Context:\n        "
        ++ (context_block (d1 :: d2 :: rest)
          ++ (lit "\n\n        Question: " ++ (q ++ lit "\n        Answer:"))) := by
  rw [build_prompt_two q d1 d2 rest hq hd1 hd2 hrest, ctx_unfold]
  simp only [promptTwoPlus]
  rw [show lit "You are a helpful assistant. Use only the provided context to answer the user's\n        question. If the answer is not in the context, say you don't know.\n\n        Context:\n        - " =
    lit "You are a helpful assistant. Use only the provided context to answer the user's\n        question. If the answer is not in the context, say you don't know.\n\n        Context:\n        "
      ++ lit "- " from by decide]
  simp [List.append_assoc]

/-- Witness for the amended C6 on the spec's end-to-end example. -/
theorem C6_prompt_concatenation_witness :
    build_prompt (lit "What color is the cat?") [lit "a red cat", lit "a blue dog"] =
      lit "You are a helpful assistant. Use only the provided context to answer the user's\n        question. If the answer is not in the context, say you don't know.\n\n        Context:\n        "
        ++ (context_block [lit "a red cat", lit "a blue dog"]
          ++ (lit "\n\n        Question: "
            ++ (lit "What color is the cat?" ++ lit "\n        Answer:"))) :=
  C6_prompt_concatenation (lit "What color is the cat?") (lit "a red cat")
    (lit "a blue dog") [] (by decide) (by decide) (by decide) (by simp)

/-- C7 fails as stated: a question whose second line carries the
template's eight-space indentation is mangled by `textwrap.dedent`, so
the prompt does not contain the literal question. -/
theorem C7_counterexample :
    ¬ (lit "x\n        y" <:+: build_prompt (lit "x\n        y") []) := by
  decide

/-- C7 (amended): for every newline-free question, the prompt built with
an empty document list contains the literal question, has zero bullet
lines, and retains the structural markers: it starts with the
instruction header and contains `Context:`, `Question: ` and the
`Answer:` cue. -/
theorem C7_empty_context_structure (q : PyStr) (hq : '\n' ∉ q) :
    q <:+: build_prompt q [] ∧
    bulletLineCount (build_prompt q []) = 0 ∧
    lit "You are a helpful assistant. Use only the provided context to answer the user's\nquestion. If the answer is not in the context, say you don't know."
      <+: build_prompt q [] ∧
    lit "Context:" <:+: build_prompt q [] ∧
    lit "Question: " <:+: build_prompt q [] ∧
    lit "Answer:" <:+: build_prompt q [] := by
  have hbp := build_prompt_zero q hq
  refine ⟨?_, ?_, ?_, ?_, ?_, ?_⟩
  · rw [hbp]
    exact ⟨lit "You are a helpful assistant. Use only the provided context to answer the user's\nquestion. If the answer is not in the context, say you don't know.\n\nContext:\n\n\nQuestion: ",
      lit "\nAnswer:", by simp [promptZero, List.append_assoc]⟩
  · rw [hbp]
    unfold bulletLineCount
    rw [splitNL_promptZero q hq]
    have hQ : isBulletLine (lit "Question: " ++ q) = false := by
      unfold isBulletLine
      rw [show lit "Question: " ++ q = 'Q' :: (lit "uestion: " ++ q) from by
        rw [show lit "Question: " = 'Q' :: lit "uestion: " from by decide]
        simp]
      rw [List.dropWhile_cons]
      simp +decide [List.isPrefixOf]
    simp +decide [List.filter_cons, hQ]
  · rw [hbp]
    refine ⟨lit "\n\nContext:\n\n\nQuestion: " ++ (q ++ lit "\nAnswer:"), ?_⟩
    rw [promptZero, show lit "You are a helpful assistant. Use only the provided context to answer the user's\nquestion. If the answer is not in the context, say you don't know.\n\nContext:\n\n\nQuestion: " =
      lit "You are a helpful assistant. Use only the provided context to answer the user's\nquestion. If the answer is not in the context, say you don't know."
        ++ lit "\n\nContext:\n\n\nQuestion: " from by decide]
    simp [List.append_assoc]
  · rw [hbp]
    refine ⟨lit "You are a helpful assistant. Use only the provided context to answer the user's\nquestion. If the answer is not in the context, say you don't know.\n\n",
      lit "\n\n\nQuestion: " ++ (q ++ lit "\nAnswer:"), ?_⟩
    rw [promptZero, show lit "You are a helpful assistant. Use only the provided context to answer the user's\nquestion. If the answer is not in the context, say you don't know.\n\nContext:\n\n\nQuestion: " =
      lit "You are a helpful assistant. Use only the provided context to answer the user's\nquestion. If the answer is not in the context, say you don't know.\n\n"
        ++ (lit "Context:" ++ lit "\n\n\nQuestion: ") from by decide]
    simp [List.append_assoc]
  · rw [hbp]
    refine ⟨lit "You are a helpful assistant. Use only the provided context to answer the user's\nquestion. If the answer is not in the context, say you don't know.\n\nContext:\n\n\n",
      q ++ lit "\nAnswer:", ?_⟩
    rw [promptZero, show lit "You are a helpful assistant. Use only the provided context to answer the user's\nquestion. If the answer is not in the context, say you don't know.\n\nContext:\n\n\nQuestion: " =
      lit "You are a helpful assistant. Use only the provided context to answer the user's\nquestion. If the answer is not in the context, say you don't know.\n\nContext:\n\n\n"
        ++ lit "Question: " from by decide]
    simp [List.append_assoc]
  · rw [hbp]
    refine ⟨lit "You are a helpful assistant. Use only the provided context to answer the user's\nquestion. If the answer is not in the context, say you don't know.\n\nContext:\n\n\nQuestion: "
      ++ (q ++ lit "\n"), [], ?_⟩
    rw [promptZero, show lit "\nAnswer:" = lit "\n" ++ lit "Answer:" from by decide]
    simp [List.append_assoc]

/-- Witness for the amended C7 at a concrete question. -/
theorem C7_empty_context_structure_witness :
    lit "What color is the cat?" <:+: build_prompt (lit "What color is the cat?") [] ∧
    bulletLineCount (build_prompt (lit "What color is the cat?") []) = 0 ∧
    lit "Answer:" <:+: build_prompt (lit "What color is the cat?") [] := by
  obtain ⟨h1, h2, -, -, -, h6⟩ :=
    C7_empty_context_structure (lit "What color is the cat?") (by decide)
  exact ⟨h1, h2, h6⟩

/-- C10's second half fails as stated: with zero documents a question
containing a newline empties the common margin, so the template's
eight-space indentation is not removed at all. -/
theorem C10_counterexample :
    lit "\n        Context:" <:+: build_prompt (lit "x\ny") [] := by
  decide

/-- C10 (amended): for newline-free questions and documents the prompt's
line structure is as the claim describes.  With two or more documents
every template line after the first keeps its eight-space indentation
(the instruction continuation, `Context:`, the first bullet line,
`Question:` and `Answer:`) while the bullet lines of the second and
later documents start at column zero; with zero or one documents the
eight-space indentation is fully removed from every line. -/
theorem C10_dedent_margin_behaviour :
    (∀ (q d1 d2 : PyStr) (rest : List PyStr), '\n' ∉ q → '\n' ∉ d1 → '\n' ∉ d2 →
      (∀ d ∈ rest, '\n' ∉ d) →
      splitNL (build_prompt q (d1 :: d2 :: rest)) =
        lit "You are a helpful assistant. Use only the provided context to answer the user's" ::
          lit "        question. If the answer is not in the context, say you don't know." ::
          ([] : PyStr) ::
          lit "        Context:" ::
          ((lit "        - " ++ d1) ::
            (tailBulletLines (d2 :: rest) ++
              [([] : PyStr), lit "        Question: " ++ q, lit "        Answer:"]))) ∧
    (∀ q : PyStr, '\n' ∉ q →
      splitNL (build_prompt q []) =
        lit "You are a helpful assistant. Use only the provided context to answer the user's" ::
          lit "question. If the answer is not in the context, say you don't know." ::
          ([] : PyStr) ::
          lit "Context:" ::
          ([] : PyStr) ::
          ([] : PyStr) ::
          (lit "Question: " ++ q) :: [lit "Answer:"]) ∧
    (∀ q d : PyStr, '\n' ∉ q → '\n' ∉ d →
      splitNL (build_prompt q [d]) =
        lit "You are a helpful assistant. Use only the provided context to answer the user's" ::
          lit "question. If the answer is not in the context, say you don't know." ::
          ([] : PyStr) ::
          lit "Context:" ::
          (lit "- " ++ d) ::
          ([] : PyStr) ::
          (lit "Question: " ++ q) :: [lit "Answer:"]) := by
  refine ⟨?_, ?_, ?_⟩
  · intro q d1 d2 rest hq hd1 hd2 hrest
    rw [build_prompt_two q d1 d2 rest hq hd1 hd2 hrest]
    apply splitNL_promptTwoPlus q d1 (d2 :: rest) hq hd1
    intro d hd
    rcases List.mem_cons.mp hd with rfl | hd
    · exact hd2
    · exact hrest d hd
  · intro q hq
    rw [build_prompt_zero q hq]
    exact splitNL_promptZero q hq
  · intro q d hq hd
    rw [build_prompt_one q d hq hd]
    exact splitNL_promptOne q d hq hd

/-- Witness for the amended C10: the concrete two-document prompt keeps
the indentation with its second bullet at column zero, and the
zero-document prompt is fully dedented. -/
theorem C10_dedent_margin_behaviour_witness :
    splitNL (build_prompt (lit "What color is the cat?") [lit "a red cat", lit "a blue dog"]) =
      lit "You are a helpful assistant. Use only the provided context to answer the user's" ::
        lit "        question. If the answer is not in the context, say you don't know." ::
        ([] : PyStr) ::
        lit "        Context:" ::
        ((lit "        - " ++ lit "a red cat") ::
          (tailBulletLines [lit "a blue dog"] ++
            [([] : PyStr),
              lit "        Question: " ++ lit "What color is the cat?",
              lit "        Answer:"])) ∧
    splitNL (build_prompt (lit "Where is the dog?") []) =
      lit "You are a helpful assistant. Use only the provided context to answer the user's" ::
        lit "question. If the answer is not in the context, say you don't know." ::
        ([] : PyStr) ::
        lit "Context:" ::
        ([] : PyStr) ::
        ([] : PyStr) ::
        (lit "Question: " ++ lit "Where is the dog?") :: [lit "Answer:"] :=
  ⟨C10_dedent_margin_behaviour.1 (lit "What color is the cat?") (lit "a red cat")
      (lit "a blue dog") [] (by decide) (by decide) (by decide) (by simp),
    C10_dedent_margin_behaviour.2.1 (lit "Where is the dog?") (by decide)⟩
